import Mathlib

/-!
Verification of the `ubit_momentum` trading engine against its specification.

The repository's decision logic lives in `momentum_trader.py` (the full
implementation of the position manager, exit bookkeeping and entry policy),
`analyzer.py` (indicators, multi-timeframe analysis and momentum detection)
and `trader.py` (the entry-point orchestrator).  Python floats are modelled
as exact rationals (`ℚ`), bounded `deque`s as Lean lists with the newest
element last, and the relevant string constants as Lean `String`s.
-/

/- ===== Configuration constants (src/config.py; identical values are
   defined at the top of src/momentum_trader.py) ===== -/

def breakEvenTrigger : ℚ := 6/1000          -- BREAK_EVEN_TRIGGER = 0.006
def trailingStopActivation : ℚ := 8/1000    -- TRAILING_STOP_ACTIVATION = 0.008
def trailingStopDistance : ℚ := 4/1000      -- TRAILING_STOP_DISTANCE = 0.004
def trailingMinProfit : ℚ := 3/1000         -- TRAILING_MIN_PROFIT = 0.003
def takeProfitTarget : ℚ := 25/1000         -- TAKE_PROFIT_TARGET = 0.025
def maxHoldingTime : ℚ := 21600             -- MAX_HOLDING_TIME = 21600 (seconds)
def tradingFeeRate : ℚ := 5/10000           -- TRADING_FEE_RATE = 0.0005

def momentumWindow : ℕ := 20                -- MOMENTUM_WINDOW
def momentumThreshold : ℚ := 15/1000        -- MOMENTUM_THRESHOLD
def minSignalStrength : ℚ := 75             -- MIN_SIGNAL_STRENGTH
def volumeSpikeRatioCfg : ℚ := 3            -- VOLUME_SPIKE_RATIO
def consecutiveUpCandles : ℕ := 6           -- CONSECUTIVE_UP_CANDLES
def breakoutVelocity : ℚ := 15/10000        -- BREAKOUT_VELOCITY

def useSecondCandles : Bool := true         -- USE_SECOND_CANDLES
def secondMomentumWindow : ℕ := 15          -- SECOND_MOMENTUM_WINDOW
def secondMomentumThreshold : ℚ := 2/1000   -- SECOND_MOMENTUM_THRESHOLD
def secondRapidRiseThreshold : ℚ := 6/1000  -- SECOND_RAPID_RISE_THRESHOLD

def mtfEnabled : Bool := true               -- MTF_ENABLED
def mtf5mMinCandles : ℕ := 24               -- MTF_5M_MIN_CANDLES
def mtf15mMinCandles : ℕ := 12              -- MTF_15M_MIN_CANDLES
def mtf5mTrendThreshold : ℚ := 2/1000       -- MTF_5M_TREND_THRESHOLD
def mtf15mTrendThreshold : ℚ := 2/1000      -- MTF_15M_TREND_THRESHOLD
def mtf5mEarlyStageMax : ℚ := 2/100         -- MTF_5M_EARLY_STAGE_MAX
def mtfMax1mChange : ℚ := 3/100             -- MTF_MAX_1M_CHANGE
def mtfVolumeConfirmation : ℚ := 3/2        -- MTF_VOLUME_CONFIRMATION
def mtfStrictMode : Bool := true            -- MTF_STRICT_MODE

/- ===== Position manager state
   (the position-related fields of `TradingState`, src/momentum_trader.py) ===== -/

structure PositionState where
  entryPrice : ℚ
  highestPrice : ℚ
  stopLossPrice : ℚ
  takeProfitPrice : ℚ
  trailingActive : Bool
deriving DecidableEq, Repr

/-- `profit_rate = (current - entry) / entry`, computed once at the top of
`MomentumTrader._manage_position` (src/momentum_trader.py). -/
def profitRate (s : PositionState) (current : ℚ) : ℚ :=
  (current - s.entryPrice) / s.entryPrice

/-- The `if current > state.highest_price:` block of
`MomentumTrader._manage_position` (src/momentum_trader.py): update the
highest price, then break-even promotion, then trailing activation. -/
def highUpdate (s : PositionState) (current : ℚ) : PositionState :=
  if s.highestPrice < current then
    let s1 := { s with highestPrice := current }
    let s2 :=
      if breakEvenTrigger ≤ profitRate s current ∧ s1.stopLossPrice < s1.entryPrice then
        { s1 with stopLossPrice := s1.entryPrice }
      else s1
    if trailingStopActivation ≤ profitRate s current ∧ s2.trailingActive = false then
      { s2 with trailingActive := true,
                stopLossPrice := max s2.stopLossPrice
                  (s2.entryPrice * (1 + trailingMinProfit)) }
    else s2
  else s

/-- The `if state.trailing_active:` block of `_manage_position`
(src/momentum_trader.py): raise the stop to
`max(highest*(1-TRAILING_STOP_DISTANCE), entry*(1+TRAILING_MIN_PROFIT))`
whenever that candidate exceeds the current stop. -/
def trailingUpdate (s : PositionState) : PositionState :=
  if s.trailingActive then
    let newStop := max (s.highestPrice * (1 - trailingStopDistance))
                       (s.entryPrice * (1 + trailingMinProfit))
    if s.stopLossPrice < newStop then { s with stopLossPrice := newStop } else s
  else s

/-- The sell-condition chain of `_manage_position` (src/momentum_trader.py):
stop-loss hit, take-profit promotion to trailing, time exit.  Returns the
updated state together with the sell reason if a sell is triggered. -/
def sellCheck (s : PositionState) (current elapsed : ℚ) :
    PositionState × Option String :=
  if current ≤ s.stopLossPrice then
    (s, some (if s.trailingActive then "trailing_stop" else "stop_loss"))
  else if s.takeProfitPrice ≤ current then
    if s.trailingActive then (s, none)
    else ({ s with trailingActive := true,
                   stopLossPrice := max s.entryPrice
                     (s.entryPrice * (1 + trailingMinProfit)) }, none)
  else if maxHoldingTime ≤ elapsed then (s, some "time_exit")
  else (s, none)

/-- One tick of `MomentumTrader._manage_position` (src/momentum_trader.py):
highest-price block, trailing update, then the sell-condition chain.
`elapsed` is the holding time in seconds. -/
def managePosition (s : PositionState) (current elapsed : ℚ) :
    PositionState × Option String :=
  sellCheck (trailingUpdate (highUpdate s current)) current elapsed

/-- Run the position manager over a list of `(price, elapsed)` ticks,
returning the state after each tick; as soon as a tick triggers a sell the
position is closed and no further state is produced. -/
def runTicks (s : PositionState) : List (ℚ × ℚ) → List PositionState
  | [] => []
  | (c, e) :: rest =>
    let r := managePosition s c e
    r.1 :: (if r.2.isSome then [] else runTicks r.1 rest)

/- ===== Exit bookkeeping (`MomentumTrader._execute_sell`,
   src/momentum_trader.py) ===== -/

/-- The fields of `state.position` used by the sell path.  `_execute_buy`
(src/momentum_trader.py) creates the position with
`price = entry`, `amount = invest_amount`, `volume = invest_amount / price`,
and sets `state.entry_price = position['price']`. -/
structure SellPosition where
  entryPrice : ℚ
  amount : ℚ
  volume : ℚ
deriving DecidableEq, Repr

/-- The global cumulative counters of `MomentumTrader`
(src/momentum_trader.py). -/
structure GlobalCounters where
  cumulativeProfit : ℚ
  cumulativeTrades : ℕ
  cumulativeWins : ℕ
  cumulativeLosses : ℕ
deriving DecidableEq, Repr

/-- The profit computation of `_execute_sell` (src/momentum_trader.py):
`sell_amount = volume * executed_price`,
`fee = (buy_amount + sell_amount) * TRADING_FEE_RATE`,
`profit = sell_amount - buy_amount - fee`. -/
def sellProfit (p : SellPosition) (executedPrice : ℚ) : ℚ :=
  let sellAmount := p.volume * executedPrice
  let fee := (p.amount + sellAmount) * tradingFeeRate
  sellAmount - p.amount - fee

/-- The cumulative-counter update of `_execute_sell`
(src/momentum_trader.py): returns the recorded profit together with the
updated counters. -/
def executeSell (p : SellPosition) (executedPrice : ℚ) (g : GlobalCounters) :
    ℚ × GlobalCounters :=
  let profit := sellProfit p executedPrice
  (profit,
   { cumulativeProfit := g.cumulativeProfit + profit
     cumulativeTrades := g.cumulativeTrades + 1
     cumulativeWins := if 0 ≤ profit then g.cumulativeWins + 1 else g.cumulativeWins
     cumulativeLosses := if 0 ≤ profit then g.cumulativeLosses else g.cumulativeLosses + 1 })

/- ===== Trade recording (`TradingState.record_trade`,
   src/momentum_trader.py) ===== -/

/-- The counter fields of `TradingState` touched by `record_trade`
(src/momentum_trader.py); the `trades_today` list and the wall-clock
timestamp fields are not modelled. -/
structure TraderCounters where
  consecutiveLosses : ℕ
  winningTrades : ℕ
  losingTrades : ℕ
  totalTrades : ℕ
  totalProfit : ℚ
  lastExitPrice : ℚ
deriving DecidableEq, Repr

/-- The trade types treated as non-stop-loss exits by `record_trade`:
`trade_type in ['take_profit', 'trailing_stop', 'time_exit']`. -/
def exitTradeTypes : List String := ["take_profit", "trailing_stop", "time_exit"]

/-- `TradingState.record_trade` (src/momentum_trader.py).  For the three
non-stop-loss exit types, `profit > 0` counts as a win and resets
`consecutive_losses`, anything else (including `profit == 0`) counts as a
loss and increments it; `stop_loss` always increments it.  `amount` is only
stored in the (unmodelled) `trades_today` entry. -/
def recordTrade (s : TraderCounters) (tradeType : String)
    (amount price profit : ℚ) : TraderCounters :=
  let _ := amount
  let s0 := { s with totalTrades := s.totalTrades + 1 }
  let s1 :=
    if tradeType ∈ exitTradeTypes then
      let sIn :=
        if 0 < profit then
          { s0 with winningTrades := s0.winningTrades + 1, consecutiveLosses := 0 }
        else
          { s0 with losingTrades := s0.losingTrades + 1,
                    consecutiveLosses := s0.consecutiveLosses + 1 }
      { sIn with totalProfit := sIn.totalProfit + profit, lastExitPrice := price }
    else s0
  if tradeType = "stop_loss" then
    { s1 with losingTrades := s1.losingTrades + 1,
              consecutiveLosses := s1.consecutiveLosses + 1,
              totalProfit := s1.totalProfit + profit,
              lastExitPrice := price }
  else s1

/- ===== Entry policy (`MomentumTrader._find_entry`,
   src/momentum_trader.py) ===== -/

/-- The values that `_find_entry` (src/momentum_trader.py) reads from the
trading state, the analyzer, the sentiment result, the momentum result and
the cached macro result. -/
structure FindEntryInput where
  canTrade : Bool               -- state.can_trade()
  lastExitPrice : ℚ             -- state.last_exit_price
  consecutiveLosses : ℕ         -- state.consecutive_losses
  currentPrice : ℚ              -- self.current_prices[market]
  minuteCandleCount : ℕ         -- len(analyzer.minute_candles)
  secondCandleCount : ℕ         -- len(analyzer.second_candles)
  hasMacroResult : Bool         -- analyzer.macro_result is truthy
  h4Change : ℚ                  -- macro_result['h4_change']
  daily3dChange : ℚ             -- macro_result['daily_3d_change']
  m5Change : ℚ                  -- macro_result['m5_change']
  sentimentLabel : String       -- sentiment['sentiment']
  fatigue : ℚ                   -- sentiment['fatigue']
  rsi : ℚ                       -- sentiment['rsi']
  sellPressure : ℚ              -- sentiment['sell_pressure']
  momentumSignal : Bool         -- momentum['signal']
  momentumStrength : ℚ          -- momentum['strength']
  momentumExhaustion : Bool     -- analyzer.momentum_exhaustion
deriving DecidableEq, Repr

/-- The filter chain of `MomentumTrader._find_entry`
(src/momentum_trader.py) in source order; `true` means the function reaches
the call to `_execute_buy` (a buy order is emitted). -/
def findEntry (inp : FindEntryInput) : Bool :=
  if inp.canTrade = false then false
  else if 0 < inp.lastExitPrice ∧ 0 < inp.consecutiveLosses ∧
          inp.lastExitPrice * (98/100) < inp.currentPrice then false
  else if inp.minuteCandleCount < momentumWindow then false
  else if useSecondCandles ∧ inp.secondCandleCount < secondMomentumWindow then false
  else if inp.hasMacroResult ∧ inp.h4Change < -(5/1000) then false
  else if inp.hasMacroResult ∧ (20/100 : ℚ) < inp.daily3dChange ∧
          inp.m5Change < 5/1000 then false
  else if inp.sentimentLabel = "bearish" then false
  else if inp.momentumSignal = false then false
  else if (75 : ℚ) ≤ inp.rsi then false
  else if ((35 : ℚ) ≤ inp.fatigue ∨ (65 : ℚ) ≤ inp.rsi) ∧
          inp.momentumStrength < 75 then false
  else if ((35 : ℚ) ≤ inp.fatigue ∨ (65 : ℚ) ≤ inp.rsi) ∧
          (1/2 : ℚ) < inp.sellPressure then false
  else if inp.momentumExhaustion then false
  else true

/- ===== RSI (`MarketAnalyzer._update_technical_indicators`,
   src/analyzer.py) ===== -/

/-- The last `n` elements of a list (Python `list[-n:]` / the tail of a
bounded deque). -/
def lastN {α : Type} (n : ℕ) (l : List α) : List α :=
  l.drop (l.length - n)

/-- Successive differences of a list of prices.  The source iterates
`for i in range(1, min(15, len(prices)))` computing
`prices[-i] - prices[-i-1]`, i.e. the adjacent differences of the last
`min(15, len)` prices, newest delta first; only the sums and signs of the
deltas are used downstream, so the order is immaterial and the deltas are
listed oldest first here. -/
def adjacentDiffs : List ℚ → List ℚ
  | [] => []
  | [_] => []
  | a :: b :: rest => (b - a) :: adjacentDiffs (b :: rest)

/-- The price deltas examined by the RSI computation in
`_update_technical_indicators` (src/analyzer.py). -/
def rsiDeltas (prices : List ℚ) : List ℚ :=
  adjacentDiffs (lastN 15 prices)

/-- The RSI computation of `_update_technical_indicators`
(src/analyzer.py): positive deltas are gains, all other deltas (including
zero) contribute `abs(change)` to the losses; an empty gain or loss list
falls back to the sentinel `0.0001`. -/
def rsiFromPrices (prices : List ℚ) : ℚ :=
  let deltas := rsiDeltas prices
  let gains := deltas.filter (fun d => 0 < d)
  let losses := (deltas.filter (fun d => ¬ 0 < d)).map (fun d => |d|)
  let avgGain := if gains.isEmpty then 1/10000 else gains.sum / 14
  let avgLoss := if losses.isEmpty then 1/10000 else losses.sum / 14
  if 0 < avgLoss then 100 - 100 / (1 + avgGain / avgLoss)
  else if 0 < avgGain then 100 else 50

/-- `_update_technical_indicators` (src/analyzer.py) returns without
touching `rsi_value` when fewer than 14 prices are available; otherwise it
recomputes the RSI from the last 60 prices of the history. -/
def updateRsi (priceHistory : List ℚ) (oldRsi : ℚ) : ℚ :=
  if priceHistory.length < 14 then oldRsi
  else rsiFromPrices (lastN 60 priceHistory)

/- ===== Candles and analyzer state (src/analyzer.py) ===== -/

/-- The three candle fields read by the analyzer: `opening_price`,
`trade_price` (the close) and `candle_acc_trade_volume`. -/
structure Candle where
  openingPrice : ℚ
  tradePrice : ℚ
  accVolume : ℚ
deriving DecidableEq, Repr

def dummyCandle : Candle := ⟨0, 0, 0⟩

inductive Stage where
  | early | mid | late | neutral | unknown
deriving DecidableEq, Repr

inductive Trend where
  | bullish | bearish | neutral
deriving DecidableEq, Repr

/-- The `MarketAnalyzer` fields read by `detect_momentum`,
`detect_second_momentum`, `analyze_multi_timeframe` and
`detect_combined_momentum` (src/analyzer.py).  Candle deques are lists with
the newest candle last. -/
structure AnalyzerState where
  minuteCandles : List Candle          -- self.minute_candles
  minute5Candles : List Candle         -- self.minute5_candles
  minute15Candles : List Candle        -- self.minute15_candles
  secondCandles : List Candle          -- self.second_candles
  volumeHistory : List ℚ               -- self.volume_history
  secondVolumeHistory : List ℚ         -- self.second_volume_history
  totalAskSize : ℚ                     -- self.orderbook['total_ask_size']
  totalBidSize : ℚ                     -- self.orderbook['total_bid_size']
  imbalance : ℚ                        -- self.orderbook['imbalance']
  bidVolume5m : ℚ                      -- self.bid_volume_5m
  askVolume5m : ℚ                      -- self.ask_volume_5m
  macroTrend : Option String           -- self.macro_trend
deriving DecidableEq, Repr

/-- The consecutive-up counter of `detect_momentum` (src/analyzer.py): the
loop increments on `recent[i] > recent[i-1]` and resets to 0 otherwise, so
the final value is the length of the rising run at the end. -/
def consecUpAux (prev : ℚ) (count : ℕ) : List ℚ → ℕ
  | [] => count
  | x :: rest => if prev < x then consecUpAux x (count + 1) rest
                 else consecUpAux x 0 rest

def consecUp : List ℚ → ℕ
  | [] => 0
  | x :: rest => consecUpAux x 0 rest

/- ===== 1-minute momentum (`MarketAnalyzer.detect_momentum`,
   src/analyzer.py) ===== -/

structure MinuteResult where
  signal : Bool
  strength : ℚ
  priceChange : ℚ
  velocityPct : ℚ
  volumeQuotient : ℚ
  upCount : ℕ
deriving DecidableEq, Repr

/-- `MarketAnalyzer.detect_momentum` (src/analyzer.py). -/
def detectMomentum (a : AnalyzerState) (current : ℚ) : MinuteResult :=
  if a.minuteCandles.length < momentumWindow then ⟨false, 0, 0, 0, 0, 0⟩
  else
    let recent := lastN momentumWindow a.minuteCandles
    let first := recent.headD dummyCandle
    let priceChange := (current - first.openingPrice) / first.openingPrice
    let third := recent.getD (recent.length - 3) dummyCandle
    let velocity := if 3 ≤ recent.length then (current - third.openingPrice) / 3 else 0
    let velocityPct := if 3 ≤ recent.length then velocity / third.openingPrice else 0
    let avgVolume := if a.volumeHistory.isEmpty then 0
                     else a.volumeHistory.sum / a.volumeHistory.length
    let recentVolume := (recent.getLastD dummyCandle).accVolume
    let volumeQ := if 0 < avgVolume then recentVolume / avgVolume else 0
    let upCount := consecUp (recent.map (fun c => c.tradePrice))
    let bidAskQ := if 0 < a.totalAskSize then a.totalBidSize / a.totalAskSize else 1
    let orderbookOk : Bool := decide ((8/10 : ℚ) ≤ bidAskQ)
    let momentumOk : Bool := decide (momentumThreshold ≤ priceChange)
    let volumeOk : Bool := decide (volumeSpikeRatioCfg ≤ volumeQ)
    let velocityOk : Bool := decide (breakoutVelocity ≤ velocityPct)
    let consecutiveOk : Bool := decide (consecutiveUpCandles ≤ upCount)
    let strength :=
      (if momentumOk then (30 : ℚ) else 0)
      + (if volumeOk then volumeQ / volumeSpikeRatioCfg * 20 else 0)
      + (if velocityOk then velocityPct / breakoutVelocity * 30 else 0)
      + (if consecutiveOk then 20 else 0)
      + (if (12/10 : ℚ) < bidAskQ then 10 else 0)
    ⟨momentumOk && (volumeOk || velocityOk || consecutiveOk) && orderbookOk,
     min strength 100, priceChange, velocityPct, volumeQ, upCount⟩

/- ===== 1-second momentum (`MarketAnalyzer.detect_second_momentum`,
   src/analyzer.py) ===== -/

structure SecondResult where
  signal : Bool
  strength : ℚ
  priceChange : ℚ
  rapidChange : ℚ
  rapidRise : Bool
  volumeQuotient : ℚ
deriving DecidableEq, Repr

/-- `MarketAnalyzer.detect_second_momentum` (src/analyzer.py); the
`sec_up_count` is only interpolated into the reason string and is not
modelled. -/
def detectSecondMomentum (a : AnalyzerState) (current : ℚ) : SecondResult :=
  if a.secondCandles.length < secondMomentumWindow then ⟨false, 0, 0, 0, false, 0⟩
  else
    let recent := lastN secondMomentumWindow a.secondCandles
    let first := recent.headD dummyCandle
    let secPriceChange := (current - first.openingPrice) / first.openingPrice
    let penult := recent.getD (recent.length - 2) dummyCandle
    let rapidChange := if 2 ≤ recent.length then
                         (current - penult.openingPrice) / penult.openingPrice
                       else 0
    let rapidRise : Bool := decide (secondRapidRiseThreshold ≤ rapidChange)
    let avgSecVolume := if a.secondVolumeHistory.isEmpty then 0
                        else a.secondVolumeHistory.sum / a.secondVolumeHistory.length
    let recentSecVolume := (recent.getLastD dummyCandle).accVolume
    let secVolumeQ := if 0 < avgSecVolume then recentSecVolume / avgSecVolume else 0
    let secMomentumOk : Bool := decide (secondMomentumThreshold ≤ secPriceChange)
    let secVolumeOk : Bool := decide (volumeSpikeRatioCfg ≤ secVolumeQ)
    let strength :=
      (if secMomentumOk then secPriceChange / secondMomentumThreshold * 25 else 0)
      + (if secVolumeOk then (secVolumeQ - 1) * 15 else 0)
      + (if rapidRise then rapidChange / secondRapidRiseThreshold * 30 else 0)
    ⟨(secMomentumOk && secVolumeOk) || rapidRise, min strength 100,
     secPriceChange, rapidChange, rapidRise, secVolumeQ⟩

/- ===== Multi-timeframe analysis (`MarketAnalyzer.analyze_multi_timeframe`,
   src/analyzer.py) ===== -/

structure MtfResult where
  validEntry : Bool
  stage : Stage
  trend5m : Trend
  trend15m : Trend
  change5m : ℚ
  change15m : ℚ
  volumeConfirmed : Bool
deriving DecidableEq, Repr

/-- The uptrend stage classification inside `analyze_multi_timeframe`
(src/analyzer.py): given `change_5m` and the incoming `valid_entry` flag,
return the stage and the updated flag.  Source:
`if change_5m >= MTF_5M_EARLY_STAGE_MAX:` → late and `valid_entry = False`;
`elif change_5m >= MTF_5M_TREND_THRESHOLD:` → early if `change_5m <= 0.008`
else mid; `else` → neutral. -/
def stageUpdate (change5m : ℚ) (validIn : Bool) : Stage × Bool :=
  if mtf5mEarlyStageMax ≤ change5m then (Stage.late, false)
  else if mtf5mTrendThreshold ≤ change5m then
    (if change5m ≤ 8/1000 then (Stage.early, validIn) else (Stage.mid, validIn))
  else (Stage.neutral, validIn)

/-- `MarketAnalyzer.analyze_multi_timeframe` (src/analyzer.py); the
`reasons` and `warnings` string lists are not modelled. -/
def analyzeMultiTimeframe (a : AnalyzerState) (current : ℚ) : MtfResult :=
  let r0 : MtfResult := ⟨true, Stage.unknown, Trend.neutral, Trend.neutral, 0, 0, false⟩
  if mtfEnabled = false then r0
  else if a.macroTrend = some "bearish" then { r0 with validEntry := false }
  else
    -- 1. 5-minute block
    let r1 :=
      if mtf5mMinCandles ≤ a.minute5Candles.length then
        let candles5m := a.minute5Candles
        let ma15 := if 15 ≤ candles5m.length then
                      ((lastN 15 candles5m).map (fun c => c.tradePrice)).sum / 15
                    else 0
        let ma50 := if 50 ≤ candles5m.length then
                      ((lastN 50 candles5m).map (fun c => c.tradePrice)).sum / 50
                    else 0
        let isDowntrend : Bool := decide (0 < ma15 ∧ 0 < ma50 ∧ ma15 < ma50)
        let disparity := if 0 < ma15 then (current - ma15) / ma15 else 0
        -- downtrend branch: only the `disparity >= -0.015` case clears valid_entry
        let rA :=
          if isDowntrend && decide (-(15/1000 : ℚ) ≤ disparity) then
            { r0 with validEntry := false }
          else r0
        let candlesRecent := lastN mtf5mMinCandles candles5m
        let startPrice := (candlesRecent.headD dummyCandle).openingPrice
        let change5m := if 0 < startPrice then (current - startPrice) / startPrice else 0
        let prevClose := (candlesRecent.getD (candlesRecent.length - 2) dummyCandle).tradePrice
        let recent5mChange := if 2 ≤ candlesRecent.length ∧ 0 < prevClose then
                                ((candlesRecent.getLastD dummyCandle).tradePrice - prevClose)
                                  / prevClose
                              else 0
        let trend5m :=
          if mtf5mTrendThreshold ≤ change5m ∧ 0 ≤ recent5mChange then Trend.bullish
          else if change5m ≤ -mtf5mTrendThreshold then Trend.bearish
          else Trend.neutral
        let st := stageUpdate change5m rA.validEntry
        let volConfirmed : Bool :=
          if 3 ≤ candlesRecent.length then
            let avgVol := ((candlesRecent.dropLast.map (fun c => c.accVolume)).sum)
                            / (candlesRecent.length - 1 : ℕ)
            let currentVol := (candlesRecent.getLastD dummyCandle).accVolume
            decide (0 < avgVol ∧ avgVol * mtfVolumeConfirmation ≤ currentVol)
          else false
        { rA with validEntry := st.2, stage := st.1, trend5m := trend5m,
                  change5m := change5m, volumeConfirmed := volConfirmed }
      else r0
    -- 2. 15-minute block
    let r2 :=
      if mtf15mMinCandles ≤ a.minute15Candles.length then
        let candles15m := lastN mtf15mMinCandles a.minute15Candles
        let startPrice := (candles15m.headD dummyCandle).openingPrice
        let change15m := if 0 < startPrice then (current - startPrice) / startPrice else 0
        if mtf15mTrendThreshold ≤ change15m then
          { r1 with trend15m := Trend.bullish, change15m := change15m }
        else if change15m ≤ -mtf15mTrendThreshold then
          { r1 with trend15m := Trend.bearish, change15m := change15m,
                    validEntry := if mtfStrictMode then false else r1.validEntry }
        else { r1 with trend15m := Trend.neutral, change15m := change15m }
      else r1
    -- 3. three-bearish-5m-candle filter
    if 3 ≤ a.minute5Candles.length then
      let recent3 := lastN 3 a.minute5Candles
      let downCount := (recent3.filter (fun c => c.tradePrice < c.openingPrice)).length
      if downCount = 3 then { r2 with validEntry := false } else r2
    else r2

/- ===== Combined momentum (`MarketAnalyzer.detect_combined_momentum`,
   src/analyzer.py) ===== -/

structure CombinedResult where
  signal : Bool
  strength : ℚ
  minuteSignal : Bool
  secondSignal : Bool
  rapidRise : Bool
  mtfValid : Bool
  mtfStage : Stage
  mtfTrend5m : Trend
  mtfTrend15m : Trend
  mtfBlocked : Bool
deriving DecidableEq, Repr

/-- The successive relative changes used by the 5-minute momentum-fading
check: `(curr - prev) / prev if prev > 0 else 0` between adjacent closes. -/
def relChanges : List ℚ → List ℚ
  | [] => []
  | [_] => []
  | a :: b :: rest => (if 0 < a then (b - a) / a else 0) :: relChanges (b :: rest)

/-- `MarketAnalyzer.detect_combined_momentum` (src/analyzer.py).  The result
is wrapped in `Except` because the momentum-fading loop indexes
`minute5_candles[-4]` whenever the deque holds at least 3 candles, which in
Python raises `IndexError` when it holds exactly 3. -/
def detectCombinedMomentum (a : AnalyzerState) (current : ℚ) :
    Except String CombinedResult :=
  let minuteResult := detectMomentum a current
  let secondResult :=
    if useSecondCandles = false ∨ a.secondCandles.length < secondMomentumWindow then
      (⟨false, 0, 0, 0, false, 0⟩ : SecondResult)
    else detectSecondMomentum a current
  let mtfResult := analyzeMultiTimeframe a current
  if a.imbalance ≤ -(3/10 : ℚ) then
    Except.ok ⟨false, 0, minuteResult.signal, secondResult.signal,
               secondResult.rapidRise, mtfResult.validEntry, mtfResult.stage,
               mtfResult.trend5m, mtfResult.trend15m, true⟩
  else
    -- stage 1: combine the 1m and 1s signals
    let p0 : Bool × ℚ :=
      if minuteResult.signal && secondResult.signal then
        (true, min 100 (minuteResult.strength * (6/10) + secondResult.strength * (4/10)))
      else if secondResult.rapidRise then
        let hasMinuteSupport : Bool :=
          decide (momentumThreshold * (9/10) < minuteResult.priceChange)
        let hasBullishTrend : Bool :=
          decide (mtfResult.trend5m = Trend.bullish) ||
          decide (mtfResult.trend15m = Trend.bullish)
        if hasMinuteSupport && hasBullishTrend then (true, secondResult.strength)
        else if hasMinuteSupport then (true, secondResult.strength * (1/2))
        else (false, 0)
      else if minuteResult.signal then (true, minuteResult.strength * (8/10))
      else (false, 0)
    -- stage 1.5: trend-following fallback
    let p1 : Bool × ℚ :=
      if p0.1 = false then
        let trendBullish : Bool :=
          decide (mtfResult.trend5m = Trend.bullish) &&
          (decide (mtfResult.trend15m = Trend.bullish) ||
           decide (mtfResult.trend15m = Trend.neutral))
        let totalVol5m := a.bidVolume5m + a.askVolume5m
        let buyQ5m := if 0 < totalVol5m then a.bidVolume5m / totalVol5m * 100 else 50
        let strongBuying : Bool := decide ((55 : ℚ) ≤ buyQ5m)
        let activeRising : Bool := decide ((3/1000 : ℚ) ≤ minuteResult.priceChange)
        if trendBullish && strongBuying && activeRising then (true, 60) else p0
      else p0
    -- stage 2: MTF filter (an if/elif chain in the source)
    let mtfStep : Except String (Bool × ℚ × Bool) :=
      if p1.1 && mtfEnabled then
        if mtfResult.trend5m = Trend.bearish then Except.ok (false, p1.2, true)
        else if 3 ≤ a.minute5Candles.length then
          -- `for i in range(-3, 0)` reads `minute5_candles[i-1]`, so a deque
          -- of exactly 3 candles raises IndexError on `[-4]`
          if a.minute5Candles.length = 3 then Except.error "IndexError"
          else
            let changes := relChanges ((lastN 4 a.minute5Candles).map
                             (fun c => c.tradePrice))
            let lastM := changes.getLastD 0
            let prevM := changes.getD (changes.length - 2) 0
            if decide ((3/1000 : ℚ) < prevM) && decide (lastM < prevM * (1/2)) then
              Except.ok (false, p1.2, true)
            else
              -- the remaining elif branches (parabolic 1m, valid_entry and
              -- stage checks) are skipped by the chain in this case
              Except.ok (p1.1, p1.2, false)
        else if mtfMax1mChange ≤ minuteResult.priceChange then
          Except.ok (false, p1.2, true)
        else if mtfResult.validEntry = false then Except.ok (false, p1.2, true)
        else
          let q1 : Bool × ℚ × Bool :=
            if (mtfResult.stage = Stage.neutral ∨ mtfResult.stage = Stage.unknown) ∧
               p1.2 < 80 then (false, p1.2, true)
            else if mtfResult.stage = Stage.early then
              (p1.1, min 100 (p1.2 * (12/10)), false)
            else if mtfResult.stage = Stage.mid then
              let st := p1.2 * (85/100)
              if st < 90 then (false, st, true) else (p1.1, st, false)
            else if mtfResult.stage = Stage.late then (false, p1.2, true)
            else (p1.1, p1.2, false)
          if q1.1 then
            let st3 := if mtfResult.volumeConfirmed then min 100 (q1.2.1 + 10)
                       else q1.2.1
            if mtfResult.trend15m = Trend.bullish then
              Except.ok (q1.1, min 100 (st3 + 5), q1.2.2)
            else if mtfResult.trend15m = Trend.bearish then
              let st4 := max 0 (st3 - 20)
              if mtfStrictMode then Except.ok (false, st4, true)
              else Except.ok (q1.1, st4, q1.2.2)
            else Except.ok (q1.1, st3, q1.2.2)
          else Except.ok q1
      else Except.ok (p1.1, p1.2, false)
    -- stage 3: minimum-strength check, then assemble the result
    match mtfStep with
    | Except.error e => Except.error e
    | Except.ok (sig2, str2, blk2) =>
      let final : Bool × Bool :=
        if sig2 && decide (str2 < minSignalStrength) then (false, true)
        else (sig2, blk2)
      Except.ok ⟨final.1, str2, minuteResult.signal, secondResult.signal,
                 secondResult.rapidRise, mtfResult.validEntry, mtfResult.stage,
                 mtfResult.trend5m, mtfResult.trend15m, final.2⟩

/-- Project the signal flag out of a combined-momentum call, `none` when the
call raised. -/
def combinedSignal (r : Except String CombinedResult) : Option Bool :=
  match r with
  | Except.ok v => some v.signal
  | Except.error _ => none

/- ===== Python call and attribute models (src/analyzer.py call sites in
   src/trader.py) ===== -/

/-- Python keyword-argument binding for a function without `**kwargs`: the
call succeeds only if every passed keyword is a declared parameter,
otherwise it raises `TypeError`. -/
def callWithKeywords (acceptedParams passedKeywords : List String) :
    Except String Unit :=
  if passedKeywords.all (fun k => acceptedParams.contains k) then Except.ok ()
  else Except.error "TypeError"

/-- The keyword parameters of `MarketAnalyzer.analyze_macro`
(src/analyzer.py): the signature is `def analyze_macro(self) -> Dict`, so no
keyword besides `self` is accepted and there is no `**kwargs`. -/
def analyzeMacroParams : List String := []

/-- The keywords passed by `MomentumTrader._macro_update_loop`
(src/trader.py): `analyze_macro(silent=True)`. -/
def macroUpdateLoopKeywords : List String := ["silent"]

/-- The keywords passed by `MomentumTrader._print_market_status`
(src/trader.py): `analyze_macro(silent=True)`. -/
def printMarketStatusKeywords : List String := ["silent"]

/-- Every attribute name ever assigned on `self` anywhere in
`MarketAnalyzer` (src/analyzer.py); the class defines no other instance
attributes. -/
def marketAnalyzerAttributes : List String :=
  ["api", "market", "macro_trend", "macro_score", "last_macro_update",
   "minute_candles", "minute5_candles", "minute15_candles", "second_candles",
   "volume_history", "second_volume_history", "recent_trades",
   "bid_volume_1m", "ask_volume_1m", "bid_volume_5m", "ask_volume_5m",
   "trade_count_1m", "last_trade_update", "price_history", "volatility",
   "rsi_value", "fatigue_score", "momentum_exhaustion", "orderbook",
   "market_sentiment", "sentiment_score", "macro_result"]

/-- The analyzer attributes read, in order, by the per-market initialization
of the manual-market branch of `MomentumTrader._update_top_markets`
(src/trader.py); reading a name not defined on the instance raises
`AttributeError`. -/
def manualInitAttributeReads : List String :=
  ["minute_candles", "volume_history", "minute_candles", "minute5_candles",
   "minute15_candles", "minute30_candles", "hour1_candles"]

/-- Python attribute lookup over the init sequence: the first read of an
undefined attribute aborts the sequence with `AttributeError`. -/
def firstMissingAttribute (definedAttrs reads : List String) : Option String :=
  reads.find? (fun r => !(definedAttrs.contains r))

/- ===== Concrete inputs used by counterexamples and witnesses ===== -/

/-- A flat 1-minute candle (open = close = 1000, volume 10). -/
def flatCandle : Candle := ⟨1000, 1000, 10⟩

/-- The last 1-minute candle of the parabolic scenario, with a volume spike. -/
def spikeCandle : Candle := ⟨1000, 1000, 40⟩

/-- An analyzer state in which the 1-minute window opened at 1000 (so a tick
at 1035 is a 3.5% move), the volume spiked 4x, the orderbook is balanced and
24 flat 5-minute candles are cached. -/
def c4FailingState : AnalyzerState :=
  { minuteCandles := List.replicate 19 flatCandle ++ [spikeCandle]
    minute5Candles := List.replicate 24 flatCandle
    minute15Candles := []
    secondCandles := []
    volumeHistory := [10]
    secondVolumeHistory := []
    totalAskSize := 10
    totalBidSize := 10
    imbalance := 0
    bidVolume5m := 0
    askVolume5m := 0
    macroTrend := some "neutral" }

/-- An entry-policy input with high fatigue that passes every filter of
`_find_entry`. -/
def c5Input : FindEntryInput :=
  ⟨true, 0, 0, 100, 20, 15, false, 0, 0, 0, "neutral", 40, 50, 3/10, true, 80, false⟩

/- ===== C4 ===== -/

/-- C4: refuted on the code as written.  In `detect_combined_momentum`
(src/analyzer.py) the parabolic check
`minute_result['price_change'] >= MTF_MAX_1M_CHANGE` sits in an `elif`
behind `elif len(self.minute5_candles) >= 3:`, so whenever at least three
5-minute candles are cached (the normal operating condition) the parabolic
branch, the `valid_entry` branch and the stage branch are never evaluated.
At the concrete state below the 1-minute price change is 3.5% ≥
MTF_MAX_1M_CHANGE = 0.03, the MTF result is even Late/invalid, and the
combined signal is still `true` (strength 80). -/
theorem c4_parabolic_filter_dead :
    mtfMax1mChange ≤ (detectMomentum c4FailingState 1035).priceChange
    ∧ combinedSignal (detectCombinedMomentum c4FailingState 1035) = some true := by
  with_unfolding_all decide

/- ===== C9 ===== -/

/-- C9: `MarketAnalyzer.analyze_macro` (src/analyzer.py) accepts no `silent`
keyword, yet `_macro_update_loop` and `_print_market_status` (src/trader.py)
both call `analyze_macro(silent=True)`; under Python keyword binding every
such invocation raises `TypeError`. -/
theorem c9_analyze_macro_silent_type_error :
    callWithKeywords analyzeMacroParams macroUpdateLoopKeywords
      = Except.error "TypeError"
    ∧ callWithKeywords analyzeMacroParams printMarketStatusKeywords
      = Except.error "TypeError" :=
  ⟨rfl, rfl⟩

/- ===== C10 ===== -/

/-- C10: `MarketAnalyzer` (src/analyzer.py) never defines a
`minute30_candles` or `hour1_candles` attribute, while the manual-market
initialization path of `_update_top_markets` (src/trader.py) reads both;
the first such read (`minute30_candles`) raises `AttributeError`, which the
surrounding `except` logs as a per-market load failure. -/
theorem c10_missing_candle_rings :
    marketAnalyzerAttributes.contains "minute30_candles" = false
    ∧ marketAnalyzerAttributes.contains "hour1_candles" = false
    ∧ firstMissingAttribute marketAnalyzerAttributes manualInitAttributeReads
        = some "minute30_candles" :=
  ⟨rfl, rfl, rfl⟩

/- ===== C8 ===== -/

/-- C8 counterexample: `change_5m` exactly `0.008` satisfies the claim's
premise `0.008 ≤ change_5m < 0.02` but the source branch
`if change_5m <= 0.008: stage = 'early'` classifies it Early, not Mid. -/
theorem c8_counterexample :
    (8/1000 : ℚ) ≤ 8/1000 ∧ (8/1000 : ℚ) < 2/100
    ∧ (stageUpdate (8/1000) true).1 ≠ Stage.mid := by
  with_unfolding_all decide

/-- C8 (amended): `change_5m ≥ 0.02` is Late with `valid_entry = false`;
`0.008 < change_5m < 0.02` is Mid; `0.002 ≤ change_5m ≤ 0.008` is Early
(the boundary `0.008` itself included). -/
theorem c8_stage_classification (c : ℚ) (v : Bool) :
    ((2/100 : ℚ) ≤ c → stageUpdate c v = (Stage.late, false))
    ∧ ((8/1000 : ℚ) < c → c < 2/100 → stageUpdate c v = (Stage.mid, v))
    ∧ ((2/1000 : ℚ) ≤ c → c ≤ 8/1000 → stageUpdate c v = (Stage.early, v)) := by
  unfold stageUpdate mtf5mEarlyStageMax mtf5mTrendThreshold
  refine ⟨fun h => by rw [if_pos h], fun h1 h2 => ?_, fun h1 h2 => ?_⟩
  · rw [if_neg (by linarith), if_pos (by linarith), if_neg (by linarith)]
  · rw [if_neg (by linarith), if_pos h1, if_pos h2]

/-- C8 witness: a 3% five-minute change is classified Late and rejected. -/
theorem c8_stage_classification_witness :
    (2/100 : ℚ) ≤ 3/100 ∧ stageUpdate (3/100) true = (Stage.late, false) :=
  ⟨by norm_num, (c8_stage_classification (3/100) true).1 (by norm_num)⟩

/- ===== C2 ===== -/

/-- C2: the profit recorded by `_execute_sell` (src/momentum_trader.py)
equals `volume*sell_price - volume*entry_price -
(buy_value + sell_value)*TRADING_FEE_RATE`, and the cumulative profit after
the exit is exactly the cumulative profit before plus this profit; the
hypothesis `amount = volume * entry` is established by `_execute_buy`,
which stores `volume = invest_amount / price` and `entry = price`. -/
theorem c2_exit_profit_accounting (p : SellPosition) (price : ℚ)
    (g : GlobalCounters) (hb : p.amount = p.volume * p.entryPrice) :
    (executeSell p price g).1
      = p.volume * price - p.volume * p.entryPrice
        - (p.amount + p.volume * price) * tradingFeeRate
    ∧ (executeSell p price g).2.cumulativeProfit
      = g.cumulativeProfit + (executeSell p price g).1 := by
  constructor
  · simp only [executeSell, sellProfit]
    rw [hb]
  · rfl

/-- C2 witness: entry 100, volume 10, amount 1000, sold at 110 with 5 units
of prior cumulative profit. -/
theorem c2_exit_profit_accounting_witness :
    (executeSell ⟨100, 1000, 10⟩ 110 ⟨5, 0, 0, 0⟩).1
      = 10 * 110 - 10 * 100 - (1000 + 10 * 110) * tradingFeeRate
    ∧ (executeSell ⟨100, 1000, 10⟩ 110 ⟨5, 0, 0, 0⟩).2.cumulativeProfit
      = 5 + (executeSell ⟨100, 1000, 10⟩ 110 ⟨5, 0, 0, 0⟩).1 :=
  c2_exit_profit_accounting ⟨100, 1000, 10⟩ 110 ⟨5, 0, 0, 0⟩ (by norm_num)

/- ===== C1: break-even promotion ===== -/

/-- Stage equation for `highUpdate` when the break-even condition holds but
the trailing-activation threshold is not reached. -/
theorem highUpdate_eq_noAct (s : PositionState) (current : ℚ)
    (hhigh : s.highestPrice < current)
    (htrig : breakEvenTrigger ≤ profitRate s current)
    (hstop : s.stopLossPrice < s.entryPrice)
    (hact : ¬ (trailingStopActivation ≤ profitRate s current)) :
    highUpdate s current
      = { s with highestPrice := current, stopLossPrice := s.entryPrice } := by
  rw [highUpdate, if_pos hhigh]
  simp only
  rw [if_neg (fun h => hact h.1)]
  rw [if_pos ⟨htrig, hstop⟩]

/-- Stage equation for `highUpdate` when both the break-even condition and
the trailing-activation threshold hold. -/
theorem highUpdate_eq_act (s : PositionState) (current : ℚ)
    (hhigh : s.highestPrice < current)
    (htrig : breakEvenTrigger ≤ profitRate s current)
    (hstop : s.stopLossPrice < s.entryPrice)
    (htrail : s.trailingActive = false)
    (hact : trailingStopActivation ≤ profitRate s current) :
    highUpdate s current
      = { s with highestPrice := current, trailingActive := true,
                 stopLossPrice := max s.entryPrice
                   (s.entryPrice * (1 + trailingMinProfit)) } := by
  rw [highUpdate, if_pos hhigh]
  simp only
  rw [@if_pos (breakEvenTrigger ≤ profitRate s current ∧
        s.stopLossPrice < s.entryPrice) _ ⟨htrig, hstop⟩]
  simp only
  rw [if_pos ⟨hact, htrail⟩]

/-- `trailingUpdate` is the identity on states without active trailing. -/
theorem trailingUpdate_inactive (s : PositionState) (h : s.trailingActive = false) :
    trailingUpdate s = s := by
  rw [trailingUpdate, h]
  simp

/-- `trailingUpdate` never touches the trailing flag. -/
theorem trailingUpdate_trailing (s : PositionState) :
    (trailingUpdate s).trailingActive = s.trailingActive := by
  simp only [trailingUpdate]
  split_ifs <;> rfl

/-- `trailingUpdate` never lowers the stop. -/
theorem trailingUpdate_stop_ge (s : PositionState) :
    s.stopLossPrice ≤ (trailingUpdate s).stopLossPrice := by
  simp only [trailingUpdate]
  split_ifs with h1 h2
  · exact le_of_lt h2
  · exact le_refl _
  · exact le_refl _

/-- When neither exit condition fires, the sell-condition chain returns the
state unchanged. -/
theorem sellCheck_fst_of_hold (s : PositionState) (c e : ℚ)
    (h1 : ¬ (c ≤ s.stopLossPrice)) (h2 : ¬ (s.takeProfitPrice ≤ c)) :
    (sellCheck s c e).1 = s := by
  rw [sellCheck, if_neg h1, if_neg h2]
  split_ifs <;> rfl

/-- With trailing active, the sell-condition chain never changes the stop. -/
theorem sellCheck_fst_stop_trailing (s : PositionState) (c e : ℚ)
    (h : s.trailingActive = true) :
    (sellCheck s c e).1.stopLossPrice = s.stopLossPrice := by
  rw [sellCheck]
  split_ifs <;> simp_all

/-- C1 counterexample: a fresh position (entry 100, stop 98, take-profit
102.5) ticked once at 100.9 satisfies the claim's premises (profit rate
0.9% ≥ 0.006, stop < entry) but ends the tick with stop 100.49636, not
100: the trailing activation (0.9% ≥ 0.008) and trailing update run after
the break-even promotion in the same `_manage_position` call and push the
stop above the entry price. -/
theorem c1_counterexample :
    breakEvenTrigger ≤ profitRate ⟨100, 100, 98, 205/2, false⟩ (1009/10)
    ∧ (98 : ℚ) < 100
    ∧ (managePosition ⟨100, 100, 98, 205/2, false⟩ (1009/10) 0).1.stopLossPrice ≠ 100 := by
  with_unfolding_all decide

/-- C1 (amended): on a tick that makes a new high with
`profit_rate ≥ BREAK_EVEN_TRIGGER`, a not-yet-trailing position whose stop
is below the entry ends the tick with `stop_loss_price ≥ entry_price`, and
with `stop_loss_price = entry_price` exactly when the profit rate is also
below `TRAILING_STOP_ACTIVATION (0.008)`; `trader.py`'s own
`_manage_position` has no break-even step at all, so the claim is settled
against `momentum_trader.py`, the cited implementation that has one. -/
theorem c1_break_even_promotion (s : PositionState) (current elapsed : ℚ)
    (hentry : 0 < s.entryPrice)
    (hhigh : s.highestPrice < current)
    (htrig : breakEvenTrigger ≤ profitRate s current)
    (hstop : s.stopLossPrice < s.entryPrice)
    (htrail : s.trailingActive = false)
    (htp : s.takeProfitPrice = s.entryPrice * (1 + takeProfitTarget)) :
    s.entryPrice ≤ (managePosition s current elapsed).1.stopLossPrice
    ∧ (profitRate s current < trailingStopActivation →
        (managePosition s current elapsed).1.stopLossPrice = s.entryPrice) := by
  have htrigm : breakEvenTrigger * s.entryPrice ≤ current - s.entryPrice := by
    have := htrig
    rw [profitRate, le_div_iff₀ hentry] at this
    exact this
  have hminProfit : s.entryPrice < s.entryPrice * (1 + trailingMinProfit) := by
    rw [trailingMinProfit]
    nlinarith
  have hcur : s.entryPrice < current := by
    have h6 : (0:ℚ) < breakEvenTrigger * s.entryPrice := by
      rw [breakEvenTrigger]
      positivity
    linarith
  by_cases hact : trailingStopActivation ≤ profitRate s current
  · -- trailing activates on the same tick, the stop ends above the entry
    have hH := highUpdate_eq_act s current hhigh htrig hstop htrail hact
    refine ⟨?_, fun hlt => absurd hact (not_le.mpr hlt)⟩
    rw [managePosition, hH]
    rw [sellCheck_fst_stop_trailing _ _ _ (by rw [trailingUpdate_trailing])]
    calc s.entryPrice
        ≤ max s.entryPrice (s.entryPrice * (1 + trailingMinProfit)) := le_max_left _ _
      _ ≤ _ := trailingUpdate_stop_ge _
  · -- no activation: the stop is promoted exactly to the entry price
    have hH := highUpdate_eq_noAct s current hhigh htrig hstop hact
    have hltm : current - s.entryPrice < trailingStopActivation * s.entryPrice := by
      have := not_le.mp hact
      rw [profitRate, div_lt_iff₀ hentry] at this
      exact this
    have hnostop : ¬ (current ≤ s.entryPrice) := by linarith
    have hnotp : ¬ (s.takeProfitPrice ≤ current) := by
      rw [htp, takeProfitTarget]
      rw [trailingStopActivation] at hltm
      nlinarith
    rw [managePosition, hH,
      trailingUpdate_inactive { s with highestPrice := current, stopLossPrice := s.entryPrice } htrail,
      sellCheck_fst_of_hold { s with highestPrice := current, stopLossPrice := s.entryPrice } current elapsed hnostop hnotp]
    exact ⟨le_refl _, fun _ => rfl⟩

/-- C1 witness: the spec's concrete scenario — entry 100, stop 98, one tick
at 100.7 (profit rate 0.7%, below the 0.8% activation) — promotes the stop
to exactly 100. -/
theorem c1_break_even_promotion_witness :
    breakEvenTrigger ≤ profitRate ⟨100, 100, 98, 100 * (1 + takeProfitTarget), false⟩ (1007/10)
    ∧ (managePosition ⟨100, 100, 98, 100 * (1 + takeProfitTarget), false⟩
        (1007/10) 0).1.stopLossPrice = 100 :=
  ⟨by with_unfolding_all decide,
   (c1_break_even_promotion ⟨100, 100, 98, 100 * (1 + takeProfitTarget), false⟩
      (1007/10) 0 (by norm_num) (by norm_num) (by with_unfolding_all decide)
      (by norm_num) rfl rfl).2 (by with_unfolding_all decide)⟩

/- ===== C3: trailing-stop monotonicity ===== -/

/-- The highest-price block never lowers the stop. -/
theorem highUpdate_stop_ge (s : PositionState) (current : ℚ) :
    s.stopLossPrice ≤ (highUpdate s current).stopLossPrice := by
  simp only [highUpdate]
  split_ifs with h1 h2 h3 h3
  · exact le_trans (le_of_lt h2.2) (le_max_left _ _)
  · exact le_of_lt h2.2
  · exact le_max_left _ _
  · exact le_refl _
  · exact le_refl _

/-- The highest-price block never clears the trailing flag. -/
theorem highUpdate_trailing_true (s : PositionState) (current : ℚ)
    (h : s.trailingActive = true) :
    (highUpdate s current).trailingActive = true := by
  simp only [highUpdate]
  split_ifs with h1 h2 h3 h3 <;> simp_all

/-- With trailing active, the sell-condition chain keeps the flag set. -/
theorem sellCheck_fst_trailing (s : PositionState) (c e : ℚ)
    (h : s.trailingActive = true) :
    (sellCheck s c e).1.trailingActive = true := by
  rw [sellCheck]
  split_ifs <;> simp_all

/-- A single `_manage_position` tick on a trailing-active state never
lowers the stop and keeps trailing active. -/
theorem manageStep_trailing_mono (s : PositionState) (current elapsed : ℚ)
    (h : s.trailingActive = true) :
    s.stopLossPrice ≤ (managePosition s current elapsed).1.stopLossPrice
    ∧ (managePosition s current elapsed).1.trailingActive = true := by
  have htr : (trailingUpdate (highUpdate s current)).trailingActive = true := by
    rw [trailingUpdate_trailing]
    exact highUpdate_trailing_true s current h
  constructor
  · rw [managePosition, sellCheck_fst_stop_trailing _ _ _ htr]
    exact le_trans (highUpdate_stop_ge s current) (trailingUpdate_stop_ge _)
  · rw [managePosition]
    exact sellCheck_fst_trailing _ _ _ htr

/-- C3: from any state with `trailing_active = true`, over an arbitrary
sequence of position-manager ticks and until the tick that closes the
position, the stop-loss price is monotonically non-decreasing — each tick's
resulting stop is at least the previous one's. -/
theorem c3_stop_monotone (s : PositionState) (ticks : List (ℚ × ℚ))
    (h : s.trailingActive = true) :
    List.Chain (fun a b => a.stopLossPrice ≤ b.stopLossPrice) s (runTicks s ticks) := by
  induction ticks generalizing s with
  | nil => exact List.Chain.nil
  | cons t rest ih =>
    obtain ⟨c, e⟩ := t
    have hm := manageStep_trailing_mono s c e h
    simp only [runTicks]
    by_cases hs : (managePosition s c e).2.isSome = true
    · rw [if_pos hs]
      exact List.Chain.cons hm.1 List.Chain.nil
    · rw [if_neg hs]
      exact List.Chain.cons hm.1 (ih _ hm.2)

/-- C3 witness: a trailing position (entry 100, stop 101, highest 102)
ticked at 103 and then 101.5 keeps a non-decreasing stop sequence. -/
theorem c3_stop_monotone_witness :
    (⟨100, 102, 101, 205/2, true⟩ : PositionState).trailingActive = true
    ∧ List.Chain (fun a b => a.stopLossPrice ≤ b.stopLossPrice)
        ⟨100, 102, 101, 205/2, true⟩
        (runTicks ⟨100, 102, 101, 205/2, true⟩ [(103, 0), (1015/10, 0)]) :=
  ⟨rfl, c3_stop_monotone ⟨100, 102, 101, 205/2, true⟩ [(103, 0), (1015/10, 0)] rfl⟩

/- ===== C5: fatigue / overbought entry gate ===== -/

/-- C5: in `_find_entry` (src/momentum_trader.py), whenever
`fatigue ≥ 35` or `RSI ≥ 65`, a buy is emitted only if the combined
momentum strength is at least 75 and the measured sell pressure is at most
0.50; if either fails the tick places no buy. -/
theorem c5_fatigue_overbought_gate (inp : FindEntryInput)
    (hfr : (35 : ℚ) ≤ inp.fatigue ∨ (65 : ℚ) ≤ inp.rsi)
    (hbuy : findEntry inp = true) :
    (75 : ℚ) ≤ inp.momentumStrength ∧ inp.sellPressure ≤ 1/2 := by
  rw [findEntry] at hbuy
  by_cases h1 : inp.canTrade = false
  · rw [if_pos h1] at hbuy
    exact absurd hbuy (by decide)
  rw [if_neg h1] at hbuy
  by_cases h2 : 0 < inp.lastExitPrice ∧ 0 < inp.consecutiveLosses ∧ inp.lastExitPrice * (98/100) < inp.currentPrice
  · rw [if_pos h2] at hbuy
    exact absurd hbuy (by decide)
  rw [if_neg h2] at hbuy
  by_cases h3 : inp.minuteCandleCount < momentumWindow
  · rw [if_pos h3] at hbuy
    exact absurd hbuy (by decide)
  rw [if_neg h3] at hbuy
  by_cases h4 : useSecondCandles = true ∧ inp.secondCandleCount < secondMomentumWindow
  · rw [if_pos h4] at hbuy
    exact absurd hbuy (by decide)
  rw [if_neg h4] at hbuy
  by_cases h5 : inp.hasMacroResult = true ∧ inp.h4Change < -(5/1000)
  · rw [if_pos h5] at hbuy
    exact absurd hbuy (by decide)
  rw [if_neg h5] at hbuy
  by_cases h6 : inp.hasMacroResult = true ∧ (20/100 : ℚ) < inp.daily3dChange ∧ inp.m5Change < 5/1000
  · rw [if_pos h6] at hbuy
    exact absurd hbuy (by decide)
  rw [if_neg h6] at hbuy
  by_cases h7 : inp.sentimentLabel = "bearish"
  · rw [if_pos h7] at hbuy
    exact absurd hbuy (by decide)
  rw [if_neg h7] at hbuy
  by_cases h8 : inp.momentumSignal = false
  · rw [if_pos h8] at hbuy
    exact absurd hbuy (by decide)
  rw [if_neg h8] at hbuy
  by_cases h9 : (75 : ℚ) ≤ inp.rsi
  · rw [if_pos h9] at hbuy
    exact absurd hbuy (by decide)
  rw [if_neg h9] at hbuy
  by_cases h10 : ((35 : ℚ) ≤ inp.fatigue ∨ (65 : ℚ) ≤ inp.rsi) ∧ inp.momentumStrength < 75
  · rw [if_pos h10] at hbuy
    exact absurd hbuy (by decide)
  rw [if_neg h10] at hbuy
  by_cases h11 : ((35 : ℚ) ≤ inp.fatigue ∨ (65 : ℚ) ≤ inp.rsi) ∧ (1/2 : ℚ) < inp.sellPressure
  · rw [if_pos h11] at hbuy
    exact absurd hbuy (by decide)
  rw [if_neg h11] at hbuy
  by_cases h12 : inp.momentumExhaustion = true
  · rw [if_pos h12] at hbuy
    exact absurd hbuy (by decide)
  rw [if_neg h12] at hbuy
  constructor
  · by_contra hc
    exact h10 ⟨hfr, not_le.mp hc⟩
  · by_contra hc
    exact h11 ⟨hfr, not_le.mp hc⟩

/-- C5 witness: with fatigue 40, RSI 50, strength 80 and sell pressure 0.3
the entry fires, and the gate's conclusion holds. -/
theorem c5_fatigue_overbought_gate_witness :
    ((35 : ℚ) ≤ c5Input.fatigue ∨ (65 : ℚ) ≤ c5Input.rsi)
    ∧ (75 : ℚ) ≤ c5Input.momentumStrength ∧ c5Input.sellPressure ≤ 1/2 :=
  ⟨Or.inl (by norm_num [c5Input]),
   c5_fatigue_overbought_gate c5Input (Or.inl (by norm_num [c5Input]))
     (by with_unfolding_all decide)⟩

/- ===== C6: consecutive-loss counter ===== -/

/-- C6 (amended): `record_trade` (src/momentum_trader.py) resets
`consecutive_losses` to 0 exactly for the exit types `take_profit`,
`trailing_stop`, `time_exit` with strictly positive profit; for those exit
types a profit of 0 or less increments the counter, `stop_loss` always
increments it regardless of profit, and any other trade type (such as
`buy`) leaves it unchanged. -/
theorem c6_consecutive_losses_update (s : TraderCounters) (tradeType : String)
    (amount price profit : ℚ) :
    (tradeType ∈ exitTradeTypes → 0 < profit →
      (recordTrade s tradeType amount price profit).consecutiveLosses = 0)
    ∧ (tradeType ∈ exitTradeTypes → profit ≤ 0 →
      (recordTrade s tradeType amount price profit).consecutiveLosses
        = s.consecutiveLosses + 1)
    ∧ (tradeType = "stop_loss" →
      (recordTrade s tradeType amount price profit).consecutiveLosses
        = s.consecutiveLosses + 1)
    ∧ (tradeType ∉ exitTradeTypes → tradeType ≠ "stop_loss" →
      (recordTrade s tradeType amount price profit).consecutiveLosses
        = s.consecutiveLosses) := by
  refine ⟨fun hmem hpos => ?_, fun hmem hnpos => ?_, fun heq => ?_, fun hnmem hne => ?_⟩
  · have hne : tradeType ≠ "stop_loss" := by
      intro h
      rw [h] at hmem
      exact absurd hmem (by decide)
    simp only [recordTrade]
    rw [if_neg hne, if_pos hmem, if_pos hpos]
  · have hne : tradeType ≠ "stop_loss" := by
      intro h
      rw [h] at hmem
      exact absurd hmem (by decide)
    simp only [recordTrade]
    rw [if_neg hne, if_pos hmem, if_neg (not_lt.mpr hnpos)]
  · subst heq
    simp [recordTrade, exitTradeTypes]
  · simp only [recordTrade]
    rw [if_neg hne, if_neg hnmem]

/-- C6 counterexample: a `trailing_stop` exit with profit exactly 0
(profit ≥ 0 in the claim's premise) increments `consecutive_losses` from 2
to 3 instead of resetting it to 0. -/
theorem c6_counterexample :
    (0 : ℚ) ≤ 0
    ∧ (recordTrade ⟨2, 0, 0, 0, 0, 0⟩ "trailing_stop" 1000 100 0).consecutiveLosses ≠ 0 := by
  with_unfolding_all decide

/-- C6 witness: a `take_profit` exit with profit 5 resets the counter. -/
theorem c6_consecutive_losses_update_witness :
    "take_profit" ∈ exitTradeTypes ∧ (0 : ℚ) < 5
    ∧ (recordTrade ⟨2, 0, 0, 0, 0, 0⟩ "take_profit" 1000 100 5).consecutiveLosses = 0 :=
  ⟨by decide, by norm_num,
   (c6_consecutive_losses_update ⟨2, 0, 0, 0, 0, 0⟩ "take_profit" 1000 100 5).1
     (by decide) (by norm_num)⟩

/- ===== C7: RSI with no negative delta ===== -/

/-- C7 (amended): when the examined window has no negative price delta, the
RSI is 100 whenever at least one delta is exactly zero (a zero delta lands
in the loss list, making `avg_loss = 0`, and the `avg_gain` fallback
`0.0001` is positive, so the `else 50` branch is unreachable); when every
delta is strictly positive the loss list is empty, `avg_loss` falls back to
`0.0001 > 0`, and the RSI is `100 - 100/(1 + avg_gain/0.0001)`, strictly
below 100 rather than exactly 100. -/
theorem c7_rsi_no_negative_delta (ph : List ℚ) (old : ℚ)
    (hlen : 14 ≤ ph.length)
    (hnn : ∀ d ∈ rsiDeltas (lastN 60 ph), 0 ≤ d) :
    ((∃ d ∈ rsiDeltas (lastN 60 ph), d = 0) → updateRsi ph old = 100)
    ∧ ((∀ d ∈ rsiDeltas (lastN 60 ph), 0 < d) → updateRsi ph old < 100) := by
  have hguard : ¬ (ph.length < 14) := not_lt.mpr hlen
  have hgain : (0 : ℚ) <
      (if ((rsiDeltas (lastN 60 ph)).filter (fun d => 0 < d)).isEmpty
       then 1/10000
       else ((rsiDeltas (lastN 60 ph)).filter (fun d => 0 < d)).sum / 14) := by
    by_cases hge : ((rsiDeltas (lastN 60 ph)).filter (fun d => 0 < d)).isEmpty = true
    · rw [if_pos hge]
      norm_num
    · rw [if_neg hge]
      have hne : ((rsiDeltas (lastN 60 ph)).filter (fun d => 0 < d)) ≠ [] := by
        intro h
        rw [List.isEmpty_iff] at hge
        exact hge h
      have hpos : 0 < ((rsiDeltas (lastN 60 ph)).filter (fun d => 0 < d)).sum := by
        apply List.sum_pos
        · intro a ha
          rw [List.mem_filter] at ha
          exact of_decide_eq_true ha.2
        · exact hne
      positivity
  constructor
  · rintro ⟨d0, hd0, hz⟩
    have hlossmem : d0 ∈ (rsiDeltas (lastN 60 ph)).filter (fun d => ¬ 0 < d) := by
      rw [List.mem_filter]
      refine ⟨hd0, ?_⟩
      rw [decide_eq_true_eq, hz]
      exact lt_irrefl 0
    have hallzero : ∀ x ∈ ((rsiDeltas (lastN 60 ph)).filter
        (fun d => ¬ 0 < d)).map (fun d => |d|), x = 0 := by
      intro x hx
      rw [List.mem_map] at hx
      obtain ⟨d, hdf, rfl⟩ := hx
      rw [List.mem_filter, decide_eq_true_eq] at hdf
      have hd0' : d = 0 := le_antisymm (not_lt.mp hdf.2) (hnn d hdf.1)
      rw [hd0', abs_zero]
    have hsum : (((rsiDeltas (lastN 60 ph)).filter
        (fun d => ¬ 0 < d)).map (fun d => |d|)).sum = 0 := List.sum_eq_zero hallzero
    have hnemp : ¬ ((((rsiDeltas (lastN 60 ph)).filter
        (fun d => ¬ 0 < d)).map (fun d => |d|)).isEmpty = true) := by
      rw [List.isEmpty_iff, List.map_eq_nil]
      intro h
      rw [h] at hlossmem
      exact absurd hlossmem (List.not_mem_nil d0)
    rw [updateRsi, if_neg hguard]
    simp only [rsiFromPrices]
    rw [if_neg hnemp, hsum]
    rw [if_neg (by norm_num : ¬ ((0:ℚ) < 0 / 14)), if_pos hgain]
  · intro hall
    have hfilnil : (rsiDeltas (lastN 60 ph)).filter (fun d => ¬ 0 < d) = [] := by
      rw [List.filter_eq_nil_iff]
      intro a ha
      rw [decide_eq_true_eq]
      exact not_not_intro (hall a ha)
    rw [updateRsi, if_neg hguard]
    simp only [rsiFromPrices]
    rw [hfilnil]
    simp only [List.map_nil, List.isEmpty_nil, if_true]
    rw [if_pos (by norm_num : (0:ℚ) < 1/10000)]
    have hdivpos : (0 : ℚ) <
        100 / (1 + (if ((rsiDeltas (lastN 60 ph)).filter (fun d => 0 < d)).isEmpty
                    then 1/10000
                    else ((rsiDeltas (lastN 60 ph)).filter (fun d => 0 < d)).sum / 14)
                   / (1/10000)) := by
      apply div_pos (by norm_num)
      have := div_pos hgain (show (0:ℚ) < 1/10000 by norm_num)
      linarith
    linarith

/-- C7 counterexample: a constant 14-price history has no negative and no
positive delta, so the claim demands RSI = 50, but the recomputation
returns 100 (all deltas are zero, `avg_loss = 0`, and the `avg_gain`
fallback `0.0001` is positive). -/
theorem c7_counterexample :
    (∀ d ∈ rsiDeltas (lastN 60 (List.replicate 14 (100:ℚ))), 0 ≤ d)
    ∧ (∀ d ∈ rsiDeltas (lastN 60 (List.replicate 14 (100:ℚ))), ¬ 0 < d)
    ∧ updateRsi (List.replicate 14 (100:ℚ)) 50 = 100 := by
  with_unfolding_all decide

/-- C7 witness: thirteen constant prices followed by one rise give
non-negative deltas with a zero among them, and the recomputed RSI is
exactly 100. -/
theorem c7_rsi_no_negative_delta_witness :
    14 ≤ (List.replicate 13 (100:ℚ) ++ [101]).length
    ∧ updateRsi (List.replicate 13 (100:ℚ) ++ [101]) 50 = 100 :=
  ⟨by decide,
   (c7_rsi_no_negative_delta (List.replicate 13 (100:ℚ) ++ [101]) 50 (by decide)
      (by with_unfolding_all decide)).1
     ⟨0, by with_unfolding_all decide, rfl⟩⟩
